import Mathlib

/-!
Verification of the gsc-cli authentication core.

The embedding covers, translated from the Go source:
* the persisted OAuth2 `Token` and its serialized keyring blob
  (`internal/auth` storage file: `GetToken`, `SetToken`, `DeleteToken`,
  backed by `zalando/go-keyring` under the fixed service/key pair);
* the token lifecycle (`RefreshToken`, `GetValidToken`, `GetTokenInfo`
  in `internal/auth`);
* the pieces of `LoginFlow`: the `/callback` HTTP handler, the
  select-rendezvous over code/error/timeout, the `http.HandleFunc`
  registration on the process-global default mux, and the authorization
  URL construction with its state parameter.

Go `time.Time` values are modelled as unix seconds (`Int`);
`t1.Before(t2)` is the strict order `<`.  Fallible Go calls are
`Except String` (the `error` message) or `Option`.
-/

deriving instance DecidableEq for Except

namespace GscCli

/-- The persisted OAuth2 token: the four fields of `golang.org/x/oauth2.Token`
that gsc-cli stores and refreshes (AccessToken, TokenType, RefreshToken,
Expiry).  Expiry is a unix-seconds timestamp. -/
structure Token where
  accessToken : String
  tokenType : String
  refreshToken : String
  expiry : Int
deriving Repr, DecidableEq

/-! ## Serialized keyring blob: model of `json.Marshal` / `json.Unmarshal`
on `oauth2.Token`.  The blob is one JSON object with the four fields in
struct order; string fields are escaped (the model escapes the two
characters that affect parsing, quote and backslash), and the expiry
timestamp is rendered as a decimal integer (standing for Go's injective
RFC3339 rendering of `time.Time`). -/

/-- Escape one character of a JSON string body. -/
def escChar (c : Char) : List Char :=
  if c = '\\' ∨ c = '"' then ['\\', c] else [c]

/-- Escape a whole JSON string body. -/
def escape : List Char → List Char
  | [] => []
  | c :: cs => escChar c ++ escape cs

/-- Parse a JSON string body up to and including its closing quote,
undoing `escape`; returns the body and the remaining input. -/
def parseStr : List Char → Option (List Char × List Char)
  | [] => none
  | c :: cs =>
    if c = '\\' then
      match cs with
      | [] => none
      | d :: ds => (parseStr ds).map (fun p => (d :: p.1, p.2))
    else if c = '"' then some ([], cs)
    else (parseStr cs).map (fun p => (c :: p.1, p.2))

/-- Decimal digits of `n`, least significant first; `fuel` bounds the
recursion (callers pass `fuel = n`, which always suffices). -/
def natDigitsRevFuel : Nat → Nat → List Char
  | 0, _ => []
  | _ + 1, 0 => []
  | fuel + 1, n + 1 => Nat.digitChar ((n + 1) % 10) :: natDigitsRevFuel fuel ((n + 1) / 10)

/-- Decimal digit string of a natural number, most significant first. -/
def natDigits (n : Nat) : List Char :=
  if n = 0 then [('0' : Char)] else (natDigitsRevFuel n n).reverse

/-- Decimal rendering of an integer. -/
def intChars (i : Int) : List Char :=
  if i < 0 then '-' :: natDigits i.natAbs else natDigits i.toNat

/-- Numeric value of a decimal digit character. -/
def digitVal (c : Char) : Nat := c.toNat - 48

/-- Accumulate the value of a run of decimal digits; stops at the first
non-digit, which is returned with the rest of the input. -/
def parseNatLoop (acc : Nat) : List Char → Nat × List Char
  | [] => (acc, [])
  | c :: cs => if c.isDigit then parseNatLoop (10 * acc + digitVal c) cs else (acc, c :: cs)

/-- Value of a digit run under a left accumulator (specification-side
companion of `parseNatLoop`). -/
def listVal (acc : Nat) : List Char → Nat
  | [] => acc
  | c :: cs => listVal (10 * acc + digitVal c) cs

/-- Parse a nonempty run of decimal digits. -/
def parseNatChars : List Char → Option (Nat × List Char)
  | [] => none
  | c :: cs => if c.isDigit then some (parseNatLoop (digitVal c) cs) else none

/-- Parse an optionally negated decimal integer. -/
def parseIntChars : List Char → Option (Int × List Char)
  | [] => none
  | c :: cs =>
    if c = '-' then
      (parseNatChars cs).map (fun p => (-(p.1 : Int), p.2))
    else
      (parseNatChars (c :: cs)).map (fun p => ((p.1 : Int), p.2))

/-- Consume an expected literal from the front of the input. -/
def stripLit : List Char → List Char → Option (List Char)
  | [], l => some l
  | _ :: _, [] => none
  | p :: ps, c :: cs => if p = c then stripLit ps cs else none

/-- Literal opening the blob and naming the first field. -/
def lit1 : List Char := ("\x7b\"access_token\":\"").data

/-- Literal between the access-token and token-type fields. -/
def lit2 : List Char := (",\"token_type\":\"").data

/-- Literal between the token-type and refresh-token fields. -/
def lit3 : List Char := (",\"refresh_token\":\"").data

/-- Literal between the refresh-token and expiry fields. -/
def lit4 : List Char := (",\"expiry\":").data

/-- The closing brace of the blob. -/
def closeBrace : Char := '\x7d'

/-- Character-level serialization of a `Token` (see module comment). -/
def encodeTokenChars (t : Token) : List Char :=
  lit1 ++ (escape t.accessToken.data ++ '"' ::
    (lit2 ++ (escape t.tokenType.data ++ '"' ::
      (lit3 ++ (escape t.refreshToken.data ++ '"' ::
        (lit4 ++ (intChars t.expiry ++ [closeBrace])))))))

/-- Serialized keyring blob of a `Token`: model of `json.Marshal(token)`. -/
def encodeToken (t : Token) : String := String.mk (encodeTokenChars t)

/-- Character-level deserialization of a `Token`. -/
def decodeTokenChars (l : List Char) : Option Token := do
  let r1 ← stripLit lit1 l
  let (a, r2) ← parseStr r1
  let r3 ← stripLit lit2 r2
  let (ty, r4) ← parseStr r3
  let r5 ← stripLit lit3 r4
  let (rt, r6) ← parseStr r5
  let r7 ← stripLit lit4 r6
  let (e, r8) ← parseIntChars r7
  if r8 = [closeBrace] then
    some { accessToken := String.mk a, tokenType := String.mk ty,
           refreshToken := String.mk rt, expiry := e }
  else none

/-- Deserialization of a keyring blob: model of `json.Unmarshal` into
`oauth2.Token`. -/
def decodeToken (s : String) : Option Token := decodeTokenChars s.data

/-! ## Credential store (`GetToken` / `SetToken` / `DeleteToken`).
The program uses `zalando/go-keyring` under the single fixed pair
(`serviceName = "gsc-cli"`, `tokenKey = "oauth_token"`); the store state is
therefore the content of that one slot, `Option String` (`none` is the
backend's `ErrNotFound`).  The model covers the available backend; a
platform-level storage failure is outside it. -/

/-- Keyring service name used by gsc-cli. -/
def serviceName : String := "gsc-cli"

/-- Keyring key used by gsc-cli. -/
def tokenKey : String := "oauth_token"

/-- The message `GetValidToken` returns when no token is stored. -/
def notLoggedInMsg : String := "not logged in - run \x27gsc auth login\x27 first"

/-- `GetToken`: read the keyring slot; `ErrNotFound` becomes the explicit
absent result `ok none` (Go: `return nil, nil`); a blob that does not
decode is an error. -/
def GetToken (kr : Option String) : Except String (Option Token) :=
  match kr with
  | none => .ok none
  | some data =>
    match decodeToken data with
    | none => .error ("could not decode token")
    | some t => .ok (some t)

/-- `SetToken`: marshal the token and overwrite the slot; returns the new
store state and the call's result. -/
def SetToken (_kr : Option String) (t : Token) : Option String × Except String Unit :=
  (some (encodeToken t), .ok ())

/-- `DeleteToken`: clear the slot; the backend's `ErrNotFound` is mapped to
success (Go: `return nil`). -/
def DeleteToken (kr : Option String) : Option String × Except String Unit :=
  match kr with
  | none => (none, .ok ())
  | some _ => (none, .ok ())

/-! ## Token refresh and lifecycle (`RefreshToken`, `GetValidToken`,
`GetTokenInfo`). -/

/-- What the provider would answer to a refresh round-trip. -/
inductive RefreshOutcome
  | success (accessToken : String) (tokenType : String) (refreshToken : String) (expiry : Int)
  | failure (msg : String)
deriving Repr, DecidableEq

/-- The token a successful refresh yields, given the provider's response
fields: the response's fields, except that an absent (empty) response
refresh token falls back to the stored token's. -/
def refreshedToken (old : Token) (a ty rt : String) (e : Int) : Token :=
  { accessToken := a, tokenType := ty,
    refreshToken := if rt = "" then old.refreshToken else rt,
    expiry := e }

/-- Modelled from the spec: the external oauth2 library's refresh
`TokenSource` performs one round-trip and, when the provider's response
carries no refresh token, keeps the one it sent (the stored token's) —
"preserving the old refresh token if the provider did not supply a new
one". -/
def tokenSourceToken (old : Token) (outcome : RefreshOutcome) : Except String Token :=
  match outcome with
  | .failure msg => .error msg
  | .success a ty rt e => .ok (refreshedToken old a ty rt e)

/-- Result of `RefreshToken`: the returned token or error, and how many
network round-trips were made. -/
structure RefreshOut where
  result : Except String Token
  networkCalls : Nat
deriving Repr, DecidableEq

/-- `RefreshToken`: load the client config, then ask the token source for a
fresh token; a refresh error is wrapped as "could not refresh token: ...".
`cfg` is the result of `LoadClientConfig` (its payload is irrelevant
here). -/
def RefreshTokenFn (cfg : Except String Unit) (tok : Token)
    (provider : RefreshOutcome) : RefreshOut :=
  match cfg with
  | .error e => ⟨.error e, 0⟩
  | .ok _ =>
    match tokenSourceToken tok provider with
    | .error e => ⟨.error ("could not refresh token: " ++ e), 1⟩
    | .ok t => ⟨.ok t, 1⟩

/-- The environment one `GetValidToken` call runs in: the keyring slot, the
current time, the `LoadClientConfig` result, and the provider's answer to a
refresh, were one attempted. -/
structure AuthWorld where
  keyring : Option String
  now : Int
  clientCfg : Except String Unit
  provider : RefreshOutcome
deriving Repr, DecidableEq

/-- Observable outcome of one `GetValidToken` call: its result, the keyring
slot afterward, the number of `RefreshToken` invocations and of network
round-trips. -/
structure GVTOut where
  result : Except String Token
  keyring : Option String
  refreshFnCalls : Nat
  networkCalls : Nat
deriving Repr, DecidableEq

/-- `GetValidToken`: load the stored token (absent ⇒ the not-logged-in
error); if its expiry is strictly before now (`token.Expiry.Before(now)`),
call `RefreshToken` once and persist the refreshed token with `SetToken`
before returning it, propagating a refresh error with the store untouched;
otherwise return the stored token unchanged with no refresh and no network
access. -/
def GetValidToken (w : AuthWorld) : GVTOut :=
  match GetToken w.keyring with
  | .error e => ⟨.error e, w.keyring, 0, 0⟩
  | .ok none => ⟨.error notLoggedInMsg, w.keyring, 0, 0⟩
  | .ok (some token) =>
    if token.expiry < w.now then
      let r := RefreshTokenFn w.clientCfg token w.provider
      match r.result with
      | .error e => ⟨.error e, w.keyring, 1, r.networkCalls⟩
      | .ok newTok => ⟨.ok newTok, (SetToken w.keyring newTok).1, 1, r.networkCalls⟩
    else ⟨.ok token, w.keyring, 0, 0⟩

/-- Go's zero `time.Time` (January 1, year 1 UTC) as unix seconds: the
expiry a stored token carries when no expiry was recorded. -/
def zeroTime : Int := -62135596800

/-- The `TokenInfo` record reported by `GetTokenInfo`. -/
structure TokenInfo where
  hasToken : Bool
  expiry : Int
  isExpired : Bool
  tokenType : String
deriving Repr, DecidableEq

/-- `GetTokenInfo`: read-only introspection of the stored token; absent
yields the zero-valued record with `hasToken = false`, present yields the
expiry, its strict comparison against now, and the token type. -/
def GetTokenInfo (kr : Option String) (now : Int) : Except String TokenInfo :=
  match GetToken kr with
  | .error e => .error e
  | .ok none => .ok ⟨false, zeroTime, false, ""⟩
  | .ok (some t) => .ok ⟨true, t.expiry, decide (t.expiry < now), t.tokenType⟩

/-! ## `LoginFlow` pieces. -/

/-- An HTTP response written by the callback handler. -/
structure HttpResponse where
  status : Nat
  body : String
deriving Repr, DecidableEq

/-- What the callback handler sends to the orchestrator: the authorization
code on `codeChan`, or an error on `errChan`. -/
inductive CallbackResult
  | code (c : String)
  | err (msg : String)
deriving Repr, DecidableEq

/-- The HTML page served on a successful callback (it instructs the user to
return to the terminal). -/
def successPage : String :=
  "<html><body>\n\t\t\t<h1>Authorization Successful!</h1>\n\t\t\t<p>You can close this window and return to the terminal.</p>\n\t\t\t<script>window.close();</script>\n\t\t</body></html>"

/-- Opening of the failure page, up to the interpolated reason. -/
def failPageBefore : String := "<html><body><h1>Authorization Failed</h1><p>"

/-- Closing of the failure page, after the interpolated reason. -/
def failPageAfter : String := "</p></body></html>"

/-- The reason substituted when neither `code` nor `error` is present. -/
def noCodeMsg : String := "no authorization code received"

/-- The `/callback` handler.  Its two inputs are the values of
`r.URL.Query().Get("code")` and `...Get("error")`; Go's `Get` returns `""`
both for an absent parameter and an empty one, so "present" is "non-empty"
throughout.  If a code is present it goes to `codeChan` and the 200 success
page is served; otherwise the error reason (or its fallback) is wrapped,
sent to `errChan`, and served on a 400 page. -/
def callbackHandler (codeParam errParam : String) : CallbackResult × HttpResponse :=
  if codeParam = "" then
    let errMsg := if errParam = "" then noCodeMsg else errParam
    (.err ("authorization failed: " ++ errMsg),
     ⟨400, failPageBefore ++ errMsg ++ failPageAfter⟩)
  else
    (.code codeParam, ⟨200, successPage⟩)

/-- The three events `LoginFlow`'s select waits on: a code from `codeChan`,
an error from `errChan`, or the 5-minute timer. -/
inductive LoginEvent
  | codeReceived (code : String)
  | errReceived (msg : String)
  | deadline
deriving Repr, DecidableEq

/-- The timeout in minutes (`5 * time.Minute`). -/
def loginTimeoutMinutes : Nat := 5

/-- The error message produced when the deadline fires first. -/
def timeoutMsg : String := "authorization timed out after 5 minutes"

/-- The select rendezvous: the first event to arrive decides the outcome —
a code, a propagated error, or the timeout error. -/
def loginWait (ev : LoginEvent) : Except String String :=
  match ev with
  | .codeReceived c => .ok c
  | .errReceived e => .error e
  | .deadline => .error timeoutMsg

/-- Modelled from the documented behaviour of `net/http`: registering a
pattern on a mux that already holds it panics ("http: multiple
registrations for ..."); the panic is an `Except.error` here.  The mux
state is its list of registered patterns. -/
def handleFunc (mux : List String) (pat : String) : Except String (List String) :=
  if pat ∈ mux then .error ("http: multiple registrations for " ++ pat)
  else .ok (pat :: mux)

/-- The setup phase of one `LoginFlow` call, as far as the process-global
default mux is concerned: `http.HandleFunc("/callback", ...)` registers on
`http.DefaultServeMux` (the `http.Server` is constructed with no handler).
The OS-assigned listener port is threaded through untouched. -/
def loginFlowSetup (mux : List String) (port : Nat) :
    Except String (List String × Nat) :=
  match handleFunc mux ("/callback") with
  | .error e => .error e
  | .ok mux1 => .ok (mux1, port)

/-- The redirect URI for an attempt: `http://localhost:<port>/callback`. -/
def redirectURL (port : Nat) : String :=
  "http://localhost:" ++ toString port ++ "/callback"

/-- The OAuth scope requested by gsc-cli. -/
def searchConsoleScope : String :=
  "https://www.googleapis.com/auth/webmasters.readonly"

/-- Model of `oauth2.Config.AuthCodeURL` with `AccessTypeOffline` and
`ApprovalForce`: the consent URL with the state parameter appended. -/
def AuthCodeURL (authEndpoint clientID redirect scope state : String) : String :=
  authEndpoint ++ "?access_type=offline&approval_prompt=force&client_id=" ++
    clientID ++ "&redirect_uri=" ++ redirect ++ "&response_type=code&scope=" ++
    scope ++ "&state=" ++ state

/-- The state value `LoginFlow` passes to `AuthCodeURL` on its `attempt`-th
call: the string literal `"state"`, the same on every call. -/
def loginFlowState (_attempt : Nat) : String := "state"

/-- The authorization URL built by the `attempt`-th `LoginFlow` call, given
the client's endpoint and id and the port bound for this attempt. -/
def loginFlowAuthURL (authEndpoint clientID : String) (port : Nat)
    (attempt : Nat) : String :=
  AuthCodeURL authEndpoint clientID (redirectURL port) searchConsoleScope
    (loginFlowState attempt)

/-! ## Codec round trip -/

theorem stripLit_append (p rest : List Char) : stripLit p (p ++ rest) = some rest := by
  induction p with
  | nil => rfl
  | cons c cs ih => simpa [stripLit] using ih

theorem parseStr_quot (rest : List Char) : parseStr ('"' :: rest) = some ([], rest) := by
  unfold parseStr
  rw [if_neg (by decide), if_pos rfl]

theorem parseStr_esc (c : Char) (ds : List Char) :
    parseStr ('\\' :: c :: ds) = (parseStr ds).map (fun p => (c :: p.1, p.2)) := rfl

theorem parseStr_other (c : Char) (cs : List Char) (h1 : c ≠ '\\') (h2 : c ≠ '"') :
    parseStr (c :: cs) = (parseStr cs).map (fun p => (c :: p.1, p.2)) := by
  unfold parseStr
  rw [if_neg h1, if_neg h2, ← parseStr.eq_def]

theorem parseStr_escape (s rest : List Char) :
    parseStr (escape s ++ '"' :: rest) = some (s, rest) := by
  induction s with
  | nil => exact parseStr_quot rest
  | cons c cs ih =>
    by_cases h : c = '\\' ∨ c = '"'
    · simp only [escape, escChar, if_pos h, List.cons_append, List.nil_append,
        List.append_assoc]
      rw [parseStr_esc, ih]
      rfl
    · simp only [escape, escChar, if_neg h, List.cons_append, List.nil_append]
      push_neg at h
      rw [parseStr_other c _ h.1 h.2, ih]
      rfl

theorem digitChar_isDigit : ∀ d : Nat, d < 10 → (Nat.digitChar d).isDigit = true := by
  decide

theorem digitVal_digitChar : ∀ d : Nat, d < 10 → digitVal (Nat.digitChar d) = d := by
  decide

theorem natDigitsRevFuel_digits :
    ∀ fuel n, ∀ c ∈ natDigitsRevFuel fuel n, c.isDigit = true := by
  intro fuel
  induction fuel with
  | zero => intro n c hc; simp [natDigitsRevFuel] at hc
  | succ f ih =>
    intro n c hc
    match n with
    | 0 => simp [natDigitsRevFuel] at hc
    | m + 1 =>
      simp only [natDigitsRevFuel, List.mem_cons] at hc
      rcases hc with h | h
      · subst h; exact digitChar_isDigit _ (Nat.mod_lt _ (by omega))
      · exact ih _ _ h

theorem listVal_nil (acc : Nat) : listVal acc [] = acc := rfl

theorem listVal_cons (acc : Nat) (c : Char) (cs : List Char) :
    listVal acc (c :: cs) = listVal (10 * acc + digitVal c) cs := rfl

theorem natDigitsRevFuel_fuel_zero (n : Nat) : natDigitsRevFuel 0 n = [] := rfl

theorem parseNatLoop_nil (acc : Nat) : parseNatLoop acc [] = (acc, []) := rfl

theorem parseNatLoop_cons (acc : Nat) (c : Char) (cs : List Char) :
    parseNatLoop acc (c :: cs)
      = if c.isDigit then parseNatLoop (10 * acc + digitVal c) cs
        else (acc, c :: cs) := rfl

theorem natDigitsRevFuel_arg_zero (f : Nat) : natDigitsRevFuel (f + 1) 0 = [] := rfl

theorem natDigitsRevFuel_succ (f n : Nat) :
    natDigitsRevFuel (f + 1) (n + 1)
      = Nat.digitChar ((n + 1) % 10) :: natDigitsRevFuel f ((n + 1) / 10) := rfl

theorem listVal_append (acc : Nat) (l1 l2 : List Char) :
    listVal acc (l1 ++ l2) = listVal (listVal acc l1) l2 := by
  induction l1 generalizing acc with
  | nil => rfl
  | cons c cs ih =>
    rw [List.cons_append, listVal_cons, listVal_cons]
    exact ih _

theorem natDigitsRevFuel_val :
    ∀ fuel n acc, n ≤ fuel →
      listVal acc (natDigitsRevFuel fuel n).reverse
        = acc * 10 ^ (natDigitsRevFuel fuel n).length + n := by
  intro fuel
  induction fuel with
  | zero =>
    intro n acc h
    obtain rfl : n = 0 := by omega
    rw [natDigitsRevFuel_fuel_zero]
    simp [listVal_nil]
  | succ f ih =>
    intro n acc h
    match n with
    | 0 =>
      rw [natDigitsRevFuel_arg_zero]
      simp [listVal_nil]
    | m + 1 =>
      have hdiv : (m + 1) / 10 ≤ f := by
        have h2 : (m + 1) / 10 < m + 1 := Nat.div_lt_self (by omega) (by omega)
        omega
      rw [natDigitsRevFuel_succ]
      simp only [List.reverse_cons, listVal_append, List.length_cons]
      rw [ih _ acc hdiv, listVal_cons, listVal_nil]
      rw [digitVal_digitChar _ (Nat.mod_lt _ (by omega))]
      calc 10 * (acc * 10 ^ (natDigitsRevFuel f ((m + 1) / 10)).length + (m + 1) / 10)
            + (m + 1) % 10
          = acc * (10 ^ (natDigitsRevFuel f ((m + 1) / 10)).length * 10)
            + (10 * ((m + 1) / 10) + (m + 1) % 10) := by ring
        _ = acc * 10 ^ ((natDigitsRevFuel f ((m + 1) / 10)).length + 1) + (m + 1) := by
              rw [← pow_succ, Nat.div_add_mod]

theorem natDigits_val (n : Nat) : listVal 0 (natDigits n) = n := by
  by_cases h : n = 0
  · subst h; decide
  · simp only [natDigits, if_neg h]
    rw [natDigitsRevFuel_val n n 0 (le_refl n)]
    simp

theorem natDigits_digits (n : Nat) : ∀ c ∈ natDigits n, c.isDigit = true := by
  intro c hc
  by_cases h : n = 0
  · subst h
    simp [natDigits] at hc
    subst hc
    decide
  · simp only [natDigits, if_neg h, List.mem_reverse] at hc
    exact natDigitsRevFuel_digits n n c hc

theorem natDigits_ne_nil (n : Nat) : natDigits n ≠ [] := by
  by_cases h : n = 0
  · subst h; simp [natDigits]
  · obtain ⟨m, rfl⟩ : ∃ m, n = m + 1 := ⟨n - 1, by omega⟩
    simp [natDigits, natDigitsRevFuel]

theorem parseNatLoop_append (ds : List Char) (acc : Nat) (rest : List Char)
    (hds : ∀ c ∈ ds, c.isDigit = true)
    (hrest : ∀ c, rest.head? = some c → c.isDigit = false) :
    parseNatLoop acc (ds ++ rest) = (listVal acc ds, rest) := by
  induction ds generalizing acc with
  | nil =>
    match rest with
    | [] => rfl
    | c :: cs =>
      have hc := hrest c rfl
      rw [List.nil_append, parseNatLoop_cons, if_neg (by simp [hc]), listVal_nil]
  | cons c cs ih =>
    have hc : c.isDigit = true := hds c (by simp)
    rw [List.cons_append, parseNatLoop_cons, if_pos hc, listVal_cons]
    exact ih _ (fun x hx => hds x (by simp [hx]))

theorem parseNatChars_natDigits (n : Nat) (rest : List Char)
    (hrest : ∀ c, rest.head? = some c → c.isDigit = false) :
    parseNatChars (natDigits n ++ rest) = some (n, rest) := by
  match hnd : natDigits n with
  | [] => exact absurd hnd (natDigits_ne_nil n)
  | c :: cs =>
    have hc : c.isDigit = true := natDigits_digits n c (by rw [hnd]; simp)
    have hcs : ∀ x ∈ cs, x.isDigit = true := fun x hx =>
      natDigits_digits n x (by rw [hnd]; simp [hx])
    simp only [List.cons_append, parseNatChars, hc, if_true]
    rw [parseNatLoop_append cs _ rest hcs hrest]
    have hv : listVal (digitVal c) cs = n := by
      have hval := natDigits_val n
      rw [hnd, listVal_cons] at hval
      simpa using hval
    rw [hv]

theorem parseIntChars_intChars (i : Int) (rest : List Char)
    (hrest : ∀ c, rest.head? = some c → c.isDigit = false) :
    parseIntChars (intChars i ++ rest) = some (i, rest) := by
  by_cases h : i < 0
  · simp only [intChars, if_pos h, List.cons_append, parseIntChars]
    rw [if_pos trivial, parseNatChars_natDigits _ rest hrest]
    simp only [Option.map_some', Prod.mk.injEq]
    rw [Int.ofNat_natAbs_of_nonpos (le_of_lt h), neg_neg]
  · simp only [intChars, if_neg h]
    match hnd : natDigits i.toNat with
    | [] => exact absurd hnd (natDigits_ne_nil _)
    | c :: cs =>
      have hc : c.isDigit = true := natDigits_digits _ c (by rw [hnd]; simp)
      have hcne : ¬ c = '-' := by
        intro hcc
        subst hcc
        exact absurd hc (by decide)
      simp only [List.cons_append, parseIntChars, if_neg hcne]
      rw [← List.cons_append, ← hnd, parseNatChars_natDigits _ rest hrest]
      simp only [Option.map_some', Prod.mk.injEq]
      rw [Int.toNat_of_nonneg (by omega)]

theorem decodeToken_encodeToken (t : Token) : decodeToken (encodeToken t) = some t := by
  have hbrace : ∀ c : Char, ([closeBrace] : List Char).head? = some c → c.isDigit = false := by
    intro c hc
    simp at hc
    subst hc
    decide
  simp [decodeToken, encodeToken, decodeTokenChars, encodeTokenChars,
    stripLit_append, parseStr_escape, parseIntChars_intChars _ _ hbrace]

/-! ## Shared string facts -/

theorem data_append (a b : String) : (a ++ b).data = a.data ++ b.data := rfl

theorem append_ne_of_charDiff (a b : String) (n : Nat) (hn : n < a.data.length)
    (hne : a.data[n]? ≠ b.data[n]?) : ∀ r : String, a ++ r ≠ b := by
  intro r h
  have hdata : a.data ++ r.data = b.data := by rw [← data_append, h]
  have hget : (a.data ++ r.data)[n]? = b.data[n]? := by rw [hdata]
  rw [List.getElem?_append_left hn] at hget
  exact hne hget

/-! ## Claims about the credential store -/

/-- C8: round-trip law of the credential store: for every store state and
every Token `t`, `Set(t)` succeeds and a `Get()` on the resulting store
succeeds with a Token equal to `t` in every field. -/
theorem C8_store_roundtrip (kr : Option String) (t : Token) :
    (SetToken kr t).2 = .ok ()
    ∧ GetToken (SetToken kr t).1 = .ok (some t) := by
  refine ⟨rfl, ?_⟩
  simp [SetToken, GetToken, decodeToken_encodeToken]

/-- C9: `Delete` is idempotent: deleting on an empty store succeeds (and
leaves it empty), deleting on any store succeeds, and a `Get` after any
`Delete` reports the explicit absent result, not an error. -/
theorem C9_delete_idempotent (kr : Option String) :
    (DeleteToken none).2 = .ok ()
    ∧ (DeleteToken none).1 = none
    ∧ (DeleteToken kr).2 = .ok ()
    ∧ GetToken (DeleteToken kr).1 = .ok none := by
  refine ⟨rfl, rfl, ?_, ?_⟩ <;> cases kr <;> rfl

/-! ## Claims about the token lifecycle -/

/-- C1: `GetValidToken` follows the specified algorithm.  Absent store ⇒
the not-logged-in (NotAuthenticated) failure, no refresh, no network.
Stored token with expiry strictly before now ⇒ exactly one refresh call
(one network round-trip when the client config loads), and on a successful
refresh the refreshed token is persisted and returned.  Stored token with
expiry not before now ⇒ the stored token is returned unchanged with zero
refresh calls, no network access, store untouched. -/
theorem C1_GetValidToken_algorithm (w : AuthWorld) :
    (w.keyring = none →
      GetValidToken w = ⟨.error notLoggedInMsg, w.keyring, 0, 0⟩)
    ∧ (∀ t : Token, GetToken w.keyring = .ok (some t) →
        (t.expiry < w.now →
          (GetValidToken w).refreshFnCalls = 1
          ∧ (w.clientCfg = .ok () → (GetValidToken w).networkCalls = 1)
          ∧ (∀ a ty rt : String, ∀ e : Int, w.clientCfg = .ok () →
              w.provider = .success a ty rt e →
                (GetValidToken w).result = .ok (refreshedToken t a ty rt e)
                ∧ (GetValidToken w).keyring
                    = some (encodeToken (refreshedToken t a ty rt e))))
        ∧ (¬ t.expiry < w.now →
            GetValidToken w = ⟨.ok t, w.keyring, 0, 0⟩)) := by
  refine ⟨?_, ?_⟩
  · intro hk
    simp [GetValidToken, GetToken, hk]
  · intro t ht
    refine ⟨?_, ?_⟩
    · intro hexp
      refine ⟨?_, ?_, ?_⟩
      · simp only [GetValidToken, ht, hexp, if_true]
        cases hres : (RefreshTokenFn w.clientCfg t w.provider).result <;>
          simp [hres]
      · intro hcfg
        simp only [GetValidToken, ht, hexp, if_true, RefreshTokenFn, hcfg]
        cases hout : tokenSourceToken t w.provider <;> simp [hout]
      · intro a ty rt e hcfg hp
        simp [GetValidToken, ht, hexp, RefreshTokenFn, hcfg, hp,
          tokenSourceToken, SetToken]
    · intro hexp
      simp [GetValidToken, ht, hexp]

/-- Closed witness for C1 at a concrete world: expired stored token,
loadable config, provider success. -/
theorem C1_GetValidToken_algorithm_witness :
    (GetValidToken ⟨some (encodeToken ⟨"x", "Bearer", "r", -1⟩), 0, .ok (),
        .success ("na") ("Bearer") ("") 3600⟩).refreshFnCalls = 1
    ∧ (GetValidToken ⟨some (encodeToken ⟨"x", "Bearer", "r", -1⟩), 0, .ok (),
        .success ("na") ("Bearer") ("") 3600⟩).networkCalls = 1
    ∧ (GetValidToken ⟨some (encodeToken ⟨"x", "Bearer", "r", -1⟩), 0, .ok (),
        .success ("na") ("Bearer") ("") 3600⟩).result
        = .ok (refreshedToken ⟨"x", "Bearer", "r", -1⟩ ("na") ("Bearer") ("") 3600) := by
  have h := (C1_GetValidToken_algorithm
      ⟨some (encodeToken ⟨"x", "Bearer", "r", -1⟩), 0, .ok (),
        .success ("na") ("Bearer") ("") 3600⟩).2
    ⟨"x", "Bearer", "r", -1⟩ (by decide)
  have h1 := (h.1 (by decide)).1
  have h2 := (h.1 (by decide)).2.1 rfl
  have h3 := ((h.1 (by decide)).2.2 ("na") ("Bearer") ("") 3600 rfl rfl).1
  exact ⟨h1, h2, h3⟩

/-- C2: when the refresh round-trip fails, `GetValidToken` returns the
wrapped refresh error (distinct from the NotAuthenticated message), and
the previously stored record is left untouched: no Set, no Delete. -/
theorem C2_refresh_failure (w : AuthWorld) (t : Token) (m : String)
    (ht : GetToken w.keyring = .ok (some t)) (hexp : t.expiry < w.now)
    (hcfg : w.clientCfg = .ok ()) (hp : w.provider = .failure m) :
    (GetValidToken w).result = .error ("could not refresh token: " ++ m)
    ∧ ("could not refresh token: " ++ m) ≠ notLoggedInMsg
    ∧ (GetValidToken w).keyring = w.keyring := by
  have hdist : ("could not refresh token: " ++ m) ≠ notLoggedInMsg :=
    append_ne_of_charDiff ("could not refresh token: ") notLoggedInMsg 0
      (by decide) (by decide) m
  refine ⟨?_, hdist, ?_⟩ <;>
    simp [GetValidToken, ht, hexp, RefreshTokenFn, hcfg, hp, tokenSourceToken]

/-- Closed witness for C2 at a concrete world: expired stored token,
loadable config, provider failure. -/
theorem C2_refresh_failure_witness :
    (GetValidToken ⟨some (encodeToken ⟨"x", "Bearer", "r", -1⟩), 0, .ok (),
        .failure ("invalid_grant")⟩).result
      = .error ("could not refresh token: invalid_grant")
    ∧ ("could not refresh token: invalid_grant") ≠ notLoggedInMsg
    ∧ (GetValidToken ⟨some (encodeToken ⟨"x", "Bearer", "r", -1⟩), 0, .ok (),
        .failure ("invalid_grant")⟩).keyring
      = some (encodeToken ⟨"x", "Bearer", "r", -1⟩) := by
  have h := C2_refresh_failure
    ⟨some (encodeToken ⟨"x", "Bearer", "r", -1⟩), 0, .ok (), .failure ("invalid_grant")⟩
    ⟨"x", "Bearer", "r", -1⟩ ("invalid_grant") (by decide) (by decide) rfl rfl
  exact ⟨h.1, h.2.1, h.2.2⟩

/-- C4: a refresh never discards a still-present refresh token: when the
stored token carries one and the provider's refresh response supplies none
(empty), the token `GetValidToken` returns and persists still carries the
old refresh token — and the persisted blob reads back as that token. -/
theorem C4_refresh_preserves_refresh_token (w : AuthWorld) (t : Token)
    (a ty : String) (e : Int)
    (ht : GetToken w.keyring = .ok (some t)) (hexp : t.expiry < w.now)
    (hcfg : w.clientCfg = .ok ()) (hp : w.provider = .success a ty ("") e)
    (_hold : t.refreshToken ≠ "") :
    (GetValidToken w).result = .ok (refreshedToken t a ty ("") e)
    ∧ (refreshedToken t a ty ("") e).refreshToken = t.refreshToken
    ∧ (GetValidToken w).keyring = some (encodeToken (refreshedToken t a ty ("") e))
    ∧ GetToken (GetValidToken w).keyring = .ok (some (refreshedToken t a ty ("") e)) := by
  have hrt : (refreshedToken t a ty ("") e).refreshToken = t.refreshToken := by
    simp [refreshedToken]
  have hmain : GetValidToken w
      = ⟨.ok (refreshedToken t a ty ("") e),
         some (encodeToken (refreshedToken t a ty ("") e)), 1, 1⟩ := by
    simp [GetValidToken, ht, hexp, RefreshTokenFn, hcfg, hp, tokenSourceToken,
      SetToken]
  refine ⟨?_, hrt, ?_, ?_⟩
  · rw [hmain]
  · rw [hmain]
  · rw [hmain]
    simp [GetToken, decodeToken_encodeToken]

/-- Closed witness for C4 at a concrete world: refresh response with an
empty refresh token. -/
theorem C4_refresh_preserves_refresh_token_witness :
    (GetValidToken ⟨some (encodeToken ⟨"x", "Bearer", "oldref", -1⟩), 0, .ok (),
        .success ("na") ("Bearer") ("") 3600⟩).result
      = .ok (refreshedToken ⟨"x", "Bearer", "oldref", -1⟩ ("na") ("Bearer") ("") 3600)
    ∧ (refreshedToken ⟨"x", "Bearer", "oldref", -1⟩ ("na") ("Bearer") ("") 3600).refreshToken
      = "oldref" := by
  have h := C4_refresh_preserves_refresh_token
    ⟨some (encodeToken ⟨"x", "Bearer", "oldref", -1⟩), 0, .ok (),
      .success ("na") ("Bearer") ("") 3600⟩
    ⟨"x", "Bearer", "oldref", -1⟩ ("na") ("Bearer") 3600
    (by decide) (by decide) rfl rfl (by decide)
  exact ⟨h.1, h.2.1⟩

/-- C10: a stored token whose expiry is the zero timestamp is never treated
as valid: `GetValidToken` classifies it as expired and attempts a refresh
(one `RefreshToken` invocation), and `GetTokenInfo` reports it present and
expired. -/
theorem C10_zero_expiry_never_valid (w : AuthWorld) (t : Token)
    (ht : GetToken w.keyring = .ok (some t)) (hz : t.expiry = zeroTime)
    (hnow : 0 ≤ w.now) :
    (GetValidToken w).refreshFnCalls = 1
    ∧ GetTokenInfo w.keyring w.now = .ok ⟨true, zeroTime, true, t.tokenType⟩ := by
  have hexp : t.expiry < w.now := by
    rw [hz]
    simp only [zeroTime]
    omega
  refine ⟨?_, ?_⟩
  · simp only [GetValidToken, ht, hexp, if_true]
    cases hres : (RefreshTokenFn w.clientCfg t w.provider).result <;> simp [hres]
  · simp [GetTokenInfo, ht, hz, decide_eq_true (by rw [hz] at hexp; exact hexp)]

/-- Closed witness for C10 at a concrete world: stored token with the zero
timestamp as expiry, clock at the epoch. -/
theorem C10_zero_expiry_never_valid_witness :
    (GetValidToken ⟨some (encodeToken ⟨"x", "Bearer", "r", zeroTime⟩), 0, .ok (),
        .failure ("revoked")⟩).refreshFnCalls = 1
    ∧ GetTokenInfo (some (encodeToken ⟨"x", "Bearer", "r", zeroTime⟩)) 0
      = .ok ⟨true, zeroTime, true, "Bearer"⟩ := by
  have h := C10_zero_expiry_never_valid
    ⟨some (encodeToken ⟨"x", "Bearer", "r", zeroTime⟩), 0, .ok (), .failure ("revoked")⟩
    ⟨"x", "Bearer", "r", zeroTime⟩ (by decide) rfl (by decide)
  exact ⟨h.1, h.2⟩

/-! ## Claims about `LoginFlow` -/

set_option maxRecDepth 8192 in
/-- C3: the `/callback` route cases (with "present" meaning a non-empty
`Query().Get` result, as Go's `Get` conflates absent and empty): a present
code resolves the attempt with that code and serves HTTP 200 with the page
that instructs returning to the terminal; an absent code with a present
error resolves a failure carrying that reason and serves HTTP 400 with the
reason interpolated; both absent resolves a failure with reason "no
authorization code received" on the 400 page. -/
theorem C3_callback_cases (code err : String) :
    (code ≠ "" →
      callbackHandler code err = (.code code, ⟨200, successPage⟩)
      ∧ ∃ pre post : String,
          successPage = pre ++ (("return to the terminal") ++ post))
    ∧ (code = "" → err ≠ "" →
        callbackHandler code err
          = (.err (("authorization failed: ") ++ err),
             ⟨400, failPageBefore ++ err ++ failPageAfter⟩))
    ∧ (code = "" → err = "" →
        callbackHandler code err
          = (.err (("authorization failed: ") ++ noCodeMsg),
             ⟨400, failPageBefore ++ noCodeMsg ++ failPageAfter⟩)) := by
  refine ⟨?_, ?_, ?_⟩
  · intro hc
    refine ⟨by simp [callbackHandler, hc], ?_, ?_, ?_⟩
    · exact "<html><body>\n\t\t\t<h1>Authorization Successful!</h1>\n\t\t\t<p>You can close this window and "
    · exact ".</p>\n\t\t\t<script>window.close();</script>\n\t\t</body></html>"
    · decide
  · intro hc he
    simp [callbackHandler, hc, he]
  · intro hc he
    simp [callbackHandler, hc, he]

/-- Closed witness for C3: one request of each of the three shapes. -/
theorem C3_callback_cases_witness :
    callbackHandler ("AUTH123") ("") = (.code ("AUTH123"), ⟨200, successPage⟩)
    ∧ callbackHandler ("") ("access_denied")
        = (.err (("authorization failed: ") ++ ("access_denied")),
           ⟨400, failPageBefore ++ ("access_denied") ++ failPageAfter⟩)
    ∧ callbackHandler ("") ("")
        = (.err (("authorization failed: ") ++ noCodeMsg),
           ⟨400, failPageBefore ++ noCodeMsg ++ failPageAfter⟩) := by
  refine ⟨((C3_callback_cases ("AUTH123") ("")).1 (by decide)).1, ?_, ?_⟩
  · exact (C3_callback_cases ("") ("access_denied")).2.1 rfl (by decide)
  · exact (C3_callback_cases ("") ("")).2.2 rfl rfl

/-- C5 (code bug): repeated `Login` setup in one process.  The first
`LoginFlow` call registers `/callback` on the process-global default mux
and completes; the second call's `http.HandleFunc("/callback", ...)` finds
the pattern already registered and panics — setup does not complete, in
conflict with the claim (and §8 of the spec). -/
theorem C5_second_login_setup_panics :
    loginFlowSetup [] 40001 = .ok ([("/callback")], 40001)
    ∧ loginFlowSetup [("/callback")] 40002
        = .error ("http: multiple registrations for /callback") := by
  constructor <;> decide

/-- C6 counterexample: the claim that any two distinct Login attempts embed
different state values is false — attempts 0 and 1 both embed the literal
`"state"`. -/
theorem C6_fresh_state_counterexample :
    ¬ (∀ i j : Nat, i ≠ j → loginFlowState i ≠ loginFlowState j) := by
  intro h
  exact h 0 1 (by decide) rfl

/-- C6 (amended): every Login attempt passes the same constant state value
`"state"` to the authorization URL builder; the state is not freshly
generated, and any two attempts carry equal state values. -/
theorem C6_state_is_constant (i j : Nat) (authEndpoint clientID : String)
    (port : Nat) :
    loginFlowState i = "state"
    ∧ loginFlowState i = loginFlowState j
    ∧ loginFlowAuthURL authEndpoint clientID port i
        = AuthCodeURL authEndpoint clientID (redirectURL port)
            searchConsoleScope ("state") :=
  ⟨rfl, rfl, rfl⟩

/-- C7: when no callback arrives before the deadline, the rendezvous
resolves with the timeout error, whose message differs from every
denial message the callback handler can produce (a denial redirect with a
non-empty `error` parameter). -/
theorem C7_timeout_distinct_from_denial (reason : String) (hre : reason ≠ "") :
    loginWait .deadline = .error timeoutMsg
    ∧ (callbackHandler ("") reason).1 = .err (("authorization failed: ") ++ reason)
    ∧ loginWait (.errReceived (("authorization failed: ") ++ reason))
        = .error (("authorization failed: ") ++ reason)
    ∧ (("authorization failed: ") ++ reason) ≠ timeoutMsg := by
  refine ⟨rfl, ?_, rfl, ?_⟩
  · simp [callbackHandler, hre]
  · exact append_ne_of_charDiff ("authorization failed: ") timeoutMsg 14
      (by decide) (by decide) reason

/-- Closed witness for C7 at the denial reason "access_denied". -/
theorem C7_timeout_distinct_from_denial_witness :
    loginWait .deadline = .error timeoutMsg
    ∧ (("authorization failed: ") ++ ("access_denied")) ≠ timeoutMsg := by
  have h := C7_timeout_distinct_from_denial ("access_denied") (by decide)
  exact ⟨h.1, h.2.2.2⟩

end GscCli
